import Mathlib

/-!
Shallow embedding of the AssetCore session / authorization subsystem.

The definitions below are translated from the TypeScript source:
the refresh-token ledger, JWT codec, session manager (login, refresh,
set-active-company) and the wildcard permission evaluator.  The database
is modelled as explicit state (lists of rows); SQL statements become
filters / maps over those lists, `queryOne` becomes `List.find?`, and
`INSERT` appends.  `Date.now()` and `uuidv4()` are supplied by the caller
as explicit arguments.  One-way digests (sha256, bcrypt) are modelled as
deterministic tagging functions, matching their use as deterministic,
collision-free fingerprints.
-/

namespace AssetCore

instance {ε α : Type} [DecidableEq ε] [DecidableEq α] : DecidableEq (Except ε α) :=
  fun a b =>
    match a, b with
    | Except.ok x, Except.ok y =>
      if h : x = y then Decidable.isTrue (by rw [h])
      else Decidable.isFalse (fun hh => h (Except.ok.inj hh))
    | Except.error x, Except.error y =>
      if h : x = y then Decidable.isTrue (by rw [h])
      else Decidable.isFalse (fun hh => h (Except.error.inj hh))
    | Except.ok _, Except.error _ => Decidable.isFalse (fun hh => Except.noConfusion hh)
    | Except.error _, Except.ok _ => Decidable.isFalse (fun hh => Except.noConfusion hh)

/-- Model of the sha256 hex digest used to fingerprint refresh tokens:
a deterministic one-way function, modelled as injective tagging. -/
def sha256 (value : String) : String :=
  String.append "sha256#" value

/-- Model of bcrypt hashing (SALT_ROUNDS fixed); deterministic tagging. -/
def bcryptHash (password : String) : String :=
  String.append "bcrypt#" password

/-- Source `verifyPassword`: bcrypt.compare of a plain password against a hash. -/
def verifyPassword (password hash : String) : Bool :=
  hash == bcryptHash password

/-- Row of the `refresh_tokens` table (source interface RefreshTokenRecord).
Timestamps are epoch milliseconds. -/
structure RefreshTokenRecord where
  id : String
  user_id : String
  token_hash : String
  expires_at : Int
  revoked : Bool
  created_at : Int
deriving Repr, DecidableEq

/-- The persisted refresh-token ledger: the rows of `refresh_tokens`. -/
abbrev Ledger := List RefreshTokenRecord

/-- Source `storeRefreshToken`: hash the raw token and INSERT a fresh
non-revoked row.  `freshId` models `uuidv4()`, `now` the row creation time. -/
def storeRefreshToken (led : Ledger) (userId token : String) (expiresAt : Int)
    (freshId : String) (now : Int) : Ledger :=
  led ++ [{ id := freshId, user_id := userId, token_hash := sha256 token,
            expires_at := expiresAt, revoked := false, created_at := now }]

/-- Source `revokeRefreshToken`: UPDATE ... SET revoked = TRUE WHERE token_hash = ?. -/
def revokeRefreshToken (led : Ledger) (token : String) : Ledger :=
  led.map fun r =>
    if r.token_hash == sha256 token then { r with revoked := true } else r

/-- Source `revokeAllForUser`: UPDATE ... SET revoked = TRUE
WHERE user_id = ? AND revoked = FALSE. -/
def revokeAllForUser (led : Ledger) (userId : String) : Ledger :=
  led.map fun r =>
    if r.user_id == userId && r.revoked == false then { r with revoked := true } else r

/-- Source `isRefreshTokenValid`: SELECT rows with matching hash and user,
revoked = FALSE and expires_at > now; true iff the row set is nonempty. -/
def isRefreshTokenValid (led : Ledger) (userId token : String) (now : Int) : Bool :=
  led.any fun r =>
    r.token_hash == sha256 token && r.user_id == userId &&
      r.revoked == false && decide (r.expires_at > now)

/-- Result of `rotateRefreshToken`: source returns an ok:true record or
an ok:false, reused:true record. -/
inductive RotateResult where
  | rotated
  | reuseDetected
deriving Repr, DecidableEq

/-- Helper used inside the rotation transaction: the UPDATE that marks every
row carrying the old hash revoked (the source UPDATE filters on token_hash only). -/
def revokeByHash (h : String) (r : RefreshTokenRecord) : RefreshTokenRecord :=
  if r.token_hash == h then { r with revoked := true } else r

/-- Source `rotateRefreshToken`.  Control flow of the source:
1. SELECT rows matching (hash, user, revoked = FALSE); when empty, revokeAll
   and report reuse.
2. Inside a transaction, re-SELECT rows matching (hash, user); when the first
   row is gone or already revoked, the transaction throws (rolling back its
   own writes) and the catch handler runs revokeAll, reporting reuse.
3. Otherwise revoke the old hash, INSERT the new row, and report rotated. -/
def rotateRefreshToken (led : Ledger) (userId oldToken newToken : String)
    (newExpiresAt : Int) (freshId : String) (now : Int) : RotateResult × Ledger :=
  let oldHash := sha256 oldToken
  let oldRows := led.filter fun r =>
    r.token_hash == oldHash && r.user_id == userId && r.revoked == false
  if oldRows.length == 0 then
    (RotateResult.reuseDetected, revokeAllForUser led userId)
  else
    let checkRows := led.filter fun r => r.token_hash == oldHash && r.user_id == userId
    match checkRows with
    | [] => (RotateResult.reuseDetected, revokeAllForUser led userId)
    | first :: _ =>
      if first.revoked then
        (RotateResult.reuseDetected, revokeAllForUser led userId)
      else
        let led1 := led.map (revokeByHash oldHash)
        let led2 := led1 ++ [{ id := freshId, user_id := userId,
                               token_hash := sha256 newToken, expires_at := newExpiresAt,
                               revoked := false, created_at := now }]
        (RotateResult.rotated, led2)

/-- Predicate of the DELETE in `deleteRevokedRefreshTokens`:
revoked = TRUE, optionally AND user_id = ?, optionally AND created_at < ?. -/
def purgeMatches (userId : Option String) (olderThan : Option Int)
    (r : RefreshTokenRecord) : Bool :=
  r.revoked &&
    (match userId with | some u => r.user_id == u | none => true) &&
    (match olderThan with | some t => decide (r.created_at < t) | none => true)

/-- Source `deleteRevokedRefreshTokens`: DELETE the matching rows and return
the number of affected rows together with the remaining table. -/
def deleteRevokedRefreshTokens (led : Ledger) (userId : Option String)
    (olderThan : Option Int) : Nat × Ledger :=
  (led.countP (fun r => purgeMatches userId olderThan r),
   led.filter fun r => !(purgeMatches userId olderThan r))

/-- JWT payload as built by the source (interface JWTCustomClaims plus the
fields the source always writes).  `sub` and `active_company_id` are optional
because an arbitrary decoded token may lack them. -/
structure TokenPayload where
  sub : Option String
  iat : Int
  aud : String
  iss : String
  active_company_id : Option String
deriving Repr, DecidableEq

/-- JavaScript truthiness of an optional string claim: undefined and the
empty string are falsy, any other string is truthy. -/
def truthyStr : Option String → Option String
  | some s => if s == "" then none else some s
  | none => none

/-- Deterministic serialisation of a payload, standing in for its JSON/base64
encoding inside the compact JWT. -/
def encodePayload (p : TokenPayload) : String :=
  (match p.sub with | none => "_" | some s => String.append "S" s) ++ "." ++
    toString p.iat ++ "." ++ p.aud ++ "." ++ p.iss ++ "." ++
    (match p.active_company_id with | none => "_" | some s => String.append "S" s)

/-- Model of the HMAC signature over payload and expiry under a secret. -/
def signPayload (secret : String) (p : TokenPayload) (exp : Int) : String :=
  String.append "sig#" (secret ++ "." ++ encodePayload p ++ "." ++ toString exp)

/-- A signed compact token: payload, expiry (epoch seconds) and signature. -/
structure SignedToken where
  payload : TokenPayload
  exp : Int
  signature : String
deriving Repr, DecidableEq

/-- The wire string of a token, as hashed by the refresh-token ledger. -/
def tokenString (t : SignedToken) : String :=
  encodePayload t.payload ++ "." ++ toString t.exp ++ "." ++ t.signature

/-- Model of `jwt.sign(data, secret, expiresIn)`: expiry is the signing
clock plus the ttl, and the signature covers payload and expiry. -/
def jwtSign (secret : String) (p : TokenPayload) (ttl : Int) (nowSec : Int) : SignedToken :=
  { payload := p, exp := nowSec + ttl, signature := signPayload secret p (nowSec + ttl) }

/-- Failure modes of `jwt.verify`: TokenExpiredError or JsonWebTokenError. -/
inductive JwtError where
  | expired
  | badSignature
deriving Repr, DecidableEq

/-- Model of `jwt.verify(token, secret)`: reject a wrong signature, then an
expiry at or before the verification clock, else return the decoded payload. -/
def jwtVerify (secret : String) (t : SignedToken) (nowSec : Int) :
    Except JwtError TokenPayload :=
  if t.signature ≠ signPayload secret t.payload t.exp then
    Except.error JwtError.badSignature
  else if t.exp ≤ nowSec then
    Except.error JwtError.expired
  else
    Except.ok t.payload

/-- Source JWT_SECRET default (externalized config). -/
def JWT_SECRET : String := "your-secret-key-change-in-production"

/-- Source default JWT_EXPIRES_IN = "7d"; parseExpiresIn yields seconds. -/
def JWT_EXPIRES_IN_SECONDS : Int := 7 * 24 * 60 * 60

/-- Source default JWT_REFRESH_EXPIRES_IN = "30d"; parseExpiresIn yields seconds. -/
def JWT_REFRESH_EXPIRES_IN_SECONDS : Int := 30 * 24 * 60 * 60

/-- Source `verifyToken`: jwt.verify under the process secret, then reject a
missing (falsy) `sub` claim as malformed; errors are reported by message. -/
def verifyToken (t : SignedToken) (nowSec : Int) : Except String TokenPayload :=
  match jwtVerify JWT_SECRET t nowSec with
  | Except.error JwtError.expired => Except.error "Token has expired"
  | Except.error JwtError.badSignature => Except.error "Invalid token"
  | Except.ok decoded =>
    if (truthyStr decoded.sub).isNone then
      Except.error "Invalid token: missing subject (sub) claim"
    else
      Except.ok decoded

/-- Row of the `users` table (fields the session manager reads). -/
structure User where
  id : String
  user_type : String
  system_role : Option String
  email : String
  is_active : Bool
  last_login : Option Int
  password_hash : String
deriving Repr, DecidableEq

/-- Row of the `companies` table (fields the session manager reads). -/
structure Company where
  id : String
  name : String
  slug : String
  is_active : Bool
deriving Repr, DecidableEq

/-- Row of the `user_companies` table. -/
structure UserCompany where
  user_id : String
  company_id : String
  role : String
  permissions : Option (List String)
  is_primary : Bool
  is_active : Bool
  joined_at : Int
deriving Repr, DecidableEq

/-- The database state the session manager touches. -/
structure Database where
  users : List User
  companies : List Company
  user_companies : List UserCompany
  refresh_tokens : Ledger
deriving Repr, DecidableEq

/-- Source `getUserByEmail`: queryOne over SELECT * FROM users WHERE email = ?. -/
def getUserByEmail (db : Database) (email : String) : Option User :=
  db.users.find? fun u => u.email == email

/-- Source `getUserById`: queryOne over SELECT * FROM users WHERE id = ?. -/
def getUserById (db : Database) (userId : String) : Option User :=
  db.users.find? fun u => u.id == userId

/-- Source `updateLastLogin`: UPDATE users SET last_login = now WHERE id = ?. -/
def updateLastLogin (db : Database) (userId : String) (now : Int) : Database :=
  { db with users := db.users.map fun u =>
      if u.id == userId then { u with last_login := some now } else u }

/-- ORDER BY is_primary DESC, joined_at ASC as a boolean comparison on
membership rows: primary rows first, ties broken by ascending join time. -/
def memberLE (a b : UserCompany) : Bool :=
  (a.is_primary && !b.is_primary) ||
    (a.is_primary == b.is_primary && decide (a.joined_at ≤ b.joined_at))

/-- The ordering relation induced by `memberLE`. -/
def membershipOrder (a b : UserCompany) : Prop :=
  memberLE a b = true

instance : DecidableRel membershipOrder := fun a b =>
  inferInstanceAs (Decidable (memberLE a b = true))

instance : IsTotal UserCompany membershipOrder := by
  constructor
  intro a b
  unfold membershipOrder memberLE
  cases ha : a.is_primary <;> cases hb : b.is_primary <;> simp [ha, hb] <;> omega

instance : IsTrans UserCompany membershipOrder := by
  constructor
  intro a b c hab hbc
  unfold membershipOrder memberLE at hab hbc ⊢
  cases ha : a.is_primary <;> cases hb : b.is_primary <;> cases hc : c.is_primary <;>
    simp_all <;> omega

/-- Source `getUserCompaniesByUserId` (includeInactive = false): SELECT the
user's active membership rows ORDER BY is_primary DESC, joined_at ASC. -/
def getUserCompaniesByUserId (db : Database) (userId : String) : List UserCompany :=
  List.insertionSort membershipOrder
    (db.user_companies.filter fun uc => uc.user_id == userId && uc.is_active)

/-- Row shape returned by the membership query inside `login`: the selected
columns of user_companies joined with companies. -/
structure CompanyRow where
  company_id : String
  role : String
  permissions : Option (List String)
  is_primary : Bool
  is_active : Bool
  company_name : String
  company_slug : String
deriving Repr, DecidableEq

/-- Projection of a joined (membership, company) pair to the selected columns. -/
def toCompanyRow (p : UserCompany × Company) : CompanyRow :=
  { company_id := p.1.company_id, role := p.1.role, permissions := p.1.permissions,
    is_primary := p.1.is_primary, is_active := p.1.is_active,
    company_name := p.2.name, company_slug := p.2.slug }

/-- The membership ordering lifted to joined rows (all sort keys come from
the user_companies side). -/
def pairOrder (a b : UserCompany × Company) : Prop :=
  membershipOrder a.1 b.1

instance : DecidableRel pairOrder := fun a b =>
  inferInstanceAs (Decidable (memberLE a.1 b.1 = true))

instance : IsTotal (UserCompany × Company) pairOrder := by
  constructor
  intro a b
  exact IsTotal.total (r := membershipOrder) a.1 b.1

instance : IsTrans (UserCompany × Company) pairOrder := by
  constructor
  intro a b c hab hbc
  exact IsTrans.trans (r := membershipOrder) a.1 b.1 c.1 hab hbc

/-- The FROM/JOIN of the membership query inside `login`, before the WHERE. -/
def joinedRows (db : Database) : List (UserCompany × Company) :=
  db.user_companies.flatMap fun uc =>
    (db.companies.filter fun c => uc.company_id == c.id).map fun c => (uc, c)

/-- The FROM/JOIN/WHERE of the membership query inside `login`:
user_companies joined with companies on company_id = id, restricted to this
user's rows with uc.is_active AND c.is_active. -/
def loginCompanyPairs (db : Database) (userId : String) : List (UserCompany × Company) :=
  (joinedRows db).filter
    fun p => p.1.user_id == userId && p.1.is_active && p.2.is_active

/-- The membership query inside `login`, including its ORDER BY. -/
def loginCompanies (db : Database) (userId : String) : List CompanyRow :=
  (List.insertionSort pairOrder (loginCompanyPairs db userId)).map toCompanyRow

/-- Success payload of `login` (source AuthResponse plus companies). -/
structure LoginOk where
  user : User
  token : SignedToken
  refreshToken : SignedToken
  expiresIn : Int
  companies : List CompanyRow
deriving Repr, DecidableEq

/-- Source `login` (database-backed variant).  Input-shape validation
(loginSchema) is out of scope; the function models the flow from the
Directory lookup on.  `nowMs` models Date.now(), `freshId` the uuid of the
stored refresh-token row.  Returns the BackendResponse and the new state. -/
def login (db : Database) (email password : String) (nowMs : Int) (freshId : String) :
    Except String LoginOk × Database :=
  match getUserByEmail db email with
  | none => (Except.error "Invalid email or password", db)
  | some user =>
    if verifyPassword password user.password_hash = false then
      (Except.error "Invalid email or password", db)
    else if user.is_active = false then
      (Except.error "Account is inactive. Please contact support.", db)
    else
      let db1 := updateLastLogin db user.id nowMs
      let tokenData : TokenPayload :=
        { sub := some user.id, iat := nowMs / 1000, aud := "assetcore-client",
          iss := "assetcore", active_company_id := none }
      let token := jwtSign JWT_SECRET tokenData JWT_EXPIRES_IN_SECONDS (nowMs / 1000)
      let refreshTok := jwtSign JWT_SECRET tokenData JWT_REFRESH_EXPIRES_IN_SECONDS (nowMs / 1000)
      let refreshExpiresAt := nowMs + JWT_REFRESH_EXPIRES_IN_SECONDS * 1000
      let newLedger := storeRefreshToken db1.refresh_tokens user.id
        (tokenString refreshTok) refreshExpiresAt freshId nowMs
      let db2 := { db1 with refresh_tokens := newLedger }
      let companies :=
        if user.user_type == "tenant" then loginCompanies db user.id else []
      (Except.ok { user := user, token := token, refreshToken := refreshTok,
                   expiresIn := JWT_EXPIRES_IN_SECONDS, companies := companies }, db2)

/-- Success payload of the refresh flow (source RefreshTokenResponse + user). -/
structure RefreshOk where
  token : SignedToken
  refreshToken : SignedToken
  expiresIn : Int
  user : User
deriving Repr, DecidableEq

/-- Source `refreshToken` (ledger-backed variant): verify the presented token,
check the ledger, re-resolve the identity (must still be active), mint a new
pair preserving a truthy active_company_id claim, and rotate the ledger. -/
def refreshToken (db : Database) (presented : SignedToken) (nowMs : Int)
    (freshId : String) : Except String RefreshOk × Database :=
  match jwtVerify JWT_SECRET presented (nowMs / 1000) with
  | Except.error JwtError.expired => (Except.error "Refresh token has expired", db)
  | Except.error JwtError.badSignature => (Except.error "Invalid refresh token", db)
  | Except.ok decoded =>
    match truthyStr decoded.sub with
    | none => (Except.error "Invalid token structure", db)
    | some userId =>
      if isRefreshTokenValid db.refresh_tokens userId (tokenString presented) nowMs = false then
        (Except.error "Invalid refresh token",
         { db with refresh_tokens := revokeAllForUser db.refresh_tokens userId })
      else
        match getUserById db userId with
        | none => (Except.error "User not found", db)
        | some user =>
          if user.is_active = false then
            (Except.error "Account is inactive", db)
          else
            let tokenData : TokenPayload :=
              { sub := some user.id, iat := nowMs / 1000, aud := "assetcore-client",
                iss := "assetcore",
                active_company_id := truthyStr decoded.active_company_id }
            let newToken := jwtSign JWT_SECRET tokenData JWT_EXPIRES_IN_SECONDS (nowMs / 1000)
            let newRefresh := jwtSign JWT_SECRET tokenData JWT_REFRESH_EXPIRES_IN_SECONDS (nowMs / 1000)
            let newRefreshExpiresAt := nowMs + JWT_REFRESH_EXPIRES_IN_SECONDS * 1000
            let rot := rotateRefreshToken db.refresh_tokens userId (tokenString presented)
              (tokenString newRefresh) newRefreshExpiresAt freshId nowMs
            match rot.1 with
            | RotateResult.reuseDetected =>
              (Except.error "Refresh token reuse detected",
               { db with refresh_tokens := rot.2 })
            | RotateResult.rotated =>
              (Except.ok { token := newToken, refreshToken := newRefresh,
                           expiresIn := JWT_EXPIRES_IN_SECONDS, user := user },
               { db with refresh_tokens := rot.2 })

/-- Success payload of `mintTokensForUser`. -/
structure MintResult where
  token : SignedToken
  refreshToken : SignedToken
  expiresIn : Int
deriving Repr, DecidableEq

/-- Source `mintTokensForUser`: payload with sub/iat/aud/iss and, when the
argument is truthy, the active_company_id claim; sign both tokens. -/
def mintTokensForUser (userId : String) (activeCompanyId : Option String)
    (nowMs : Int) : MintResult :=
  let payload : TokenPayload :=
    { sub := some userId, iat := nowMs / 1000, aud := "assetcore-client",
      iss := "assetcore", active_company_id := truthyStr activeCompanyId }
  { token := jwtSign JWT_SECRET payload JWT_EXPIRES_IN_SECONDS (nowMs / 1000),
    refreshToken := jwtSign JWT_SECRET payload JWT_REFRESH_EXPIRES_IN_SECONDS (nowMs / 1000),
    expiresIn := JWT_EXPIRES_IN_SECONDS }

/-- HTTP-level outcomes of the set-active-company route. -/
inductive SetActiveCompanyResponse where
  | unauthorized
  | userNotFound
  | notTenantUser
  | forbidden
  | ok (companyId : String) (token refreshToken : SignedToken) (expiresIn : Int)
  | serverError (msg : String)
deriving Repr, DecidableEq

/-- Source POST /api/auth/set-active-company, from the point where the body
has passed shape validation.  Verifies the bearer token, loads the user with
its active memberships, rejects non-tenant users, rejects a company id
without an active membership, then mints a new pair, revokes the user's
refresh family and stores the new refresh token. -/
def setActiveCompanyPOST (db : Database) (authToken : Option SignedToken)
    (companyId : String) (nowMs : Int) (freshId : String) :
    SetActiveCompanyResponse × Database :=
  match authToken with
  | none => (SetActiveCompanyResponse.unauthorized, db)
  | some tok =>
    match verifyToken tok (nowMs / 1000) with
    | Except.error e => (SetActiveCompanyResponse.serverError e, db)
    | Except.ok decoded =>
      let uid := decoded.sub.getD ""
      match getUserById db uid with
      | none => (SetActiveCompanyResponse.userNotFound, db)
      | some user =>
        let companies := getUserCompaniesByUserId db uid
        if user.user_type ≠ "tenant" then
          (SetActiveCompanyResponse.notTenantUser, db)
        else if (companies.any fun c => c.company_id == companyId && c.is_active) = false then
          (SetActiveCompanyResponse.forbidden, db)
        else
          let minted := mintTokensForUser uid (some companyId) nowMs
          let led1 := revokeAllForUser db.refresh_tokens uid
          let refreshExpiresAt := nowMs + minted.expiresIn * 1000
          let led2 := storeRefreshToken led1 uid (tokenString minted.refreshToken)
            refreshExpiresAt freshId nowMs
          (SetActiveCompanyResponse.ok companyId minted.token minted.refreshToken
            minted.expiresIn,
           { db with refresh_tokens := led2 })

/-- Split of a character list at each ':' (JavaScript `required.split(':')`):
always returns at least one segment; empty segments are preserved. -/
def splitOnColonAux : List Char → String → List String
  | [], acc => [acc]
  | c :: rest, acc =>
    if c = ':' then acc :: splitOnColonAux rest "" else splitOnColonAux rest (acc.push c)

/-- JavaScript `s.split(':')`. -/
def splitOnColon (s : String) : List String :=
  splitOnColonAux s.data ""

/-- Entity position of a required permission: first segment of the split on ":"
(the JavaScript destructuring `const [entity, action] = required.split(':')`). -/
def entityOf (required : String) : String :=
  (splitOnColon required).getD 0 ""

/-- Action position of a required permission: second segment of the split on ":";
when absent, the JavaScript template literal renders `undefined`. -/
def actionOf (required : String) : String :=
  (splitOnColon required).getD 1 "undefined"

/-- Source `hasPermission`: exact match, then entity wildcard, action
wildcard and global wildcard. -/
def hasPermission (userPermissions : List String) (requiredPermission : String) : Bool :=
  if userPermissions.contains requiredPermission then true
  else if userPermissions.contains (entityOf requiredPermission ++ ":*") then true
  else if userPermissions.contains ("*:" ++ actionOf requiredPermission) then true
  else if userPermissions.contains "*:*" then true
  else false

/-! ## Witness fixtures: small concrete states used to instantiate theorems. -/

/-- Fixture: an active tenant user whose password is "pw". -/
def wUser : User :=
  { id := "u1", user_type := "tenant", system_role := none, email := "a@b.c",
    is_active := true, last_login := none, password_hash := bcryptHash "pw" }

/-- Fixture: a directory holding only `wUser` and an empty ledger. -/
def wDb : Database :=
  { users := [wUser], companies := [], user_companies := [], refresh_tokens := [] }

/-- Fixture: a signed token whose payload has no subject claim. -/
def wNoSubPayload : TokenPayload :=
  { sub := none, iat := 0, aud := "assetcore-client", iss := "assetcore",
    active_company_id := none }

/-- Fixture: the signed form of `wNoSubPayload`, expiring at second 100. -/
def wNoSubToken : SignedToken :=
  jwtSign JWT_SECRET wNoSubPayload 100 0

/-! ## Claims -/

/-- Claim C3: login indistinguishability (anti-enumeration).  For every
email/password pair, the failure result when the email resolves to no
identity is the identical error value returned when the identity exists but
password verification fails — "Invalid email or password" in both cases,
with the database unchanged. -/
theorem login_indistinguishable (db : Database) (email pw : String) (nowMs : Int)
    (fid : String) :
    (getUserByEmail db email = none →
      login db email pw nowMs fid = (Except.error "Invalid email or password", db)) ∧
    (∀ u, getUserByEmail db email = some u → verifyPassword pw u.password_hash = false →
      login db email pw nowMs fid = (Except.error "Invalid email or password", db)) := by
  constructor
  · intro h
    unfold login
    rw [h]
  · intro u hu hp
    unfold login
    rw [hu]
    simp [hp]

/-- Witness for C3: on the fixture, an unknown email and a wrong password
both produce the identical failure value. -/
theorem login_indistinguishable_witness :
    login wDb "zz@b.c" "pw" 0 "f" = (Except.error "Invalid email or password", wDb) ∧
    login wDb "a@b.c" "bad" 0 "f" = (Except.error "Invalid email or password", wDb) :=
  ⟨(login_indistinguishable wDb "zz@b.c" "pw" 0 "f").1 (by decide),
   (login_indistinguishable wDb "a@b.c" "bad" 0 "f").2 wUser (by decide) (by decide)⟩

/-- Claim C4: wildcard permission matching.  `hasPermission granted required`
is true iff `granted` holds the exact string, the entity wildcard, the
action wildcard, or the global wildcard, where entity/action come from
splitting `required` on ":"; the four concrete examples of the spec hold. -/
theorem hasPermission_wildcard_spec (granted : List String) (required : String) :
    (hasPermission granted required = true ↔
      required ∈ granted ∨ (entityOf required ++ ":*") ∈ granted ∨
        ("*:" ++ actionOf required) ∈ granted ∨ "*:*" ∈ granted) ∧
    hasPermission ["assets:*"] "assets:delete" = true ∧
    hasPermission ["*:read"] "maintenance:read" = true ∧
    hasPermission ["users:read"] "users:delete" = false ∧
    hasPermission ["*:*"] "anything:anything" = true := by
  refine ⟨?_, by decide, by decide, by decide, by decide⟩
  unfold hasPermission
  split_ifs with h1 h2 h3 h4 <;>
    simp_all [List.contains, List.elem_iff]

/-- Witness for C4: one of the spec's concrete examples, via the theorem. -/
theorem hasPermission_wildcard_spec_witness :
    hasPermission ["assets:*"] "assets:delete" = true :=
  (hasPermission_wildcard_spec ["assets:*"] "assets:delete").2.1

/-- Claim C6: missing-subject tokens are malformed.  When the signature
verifies but the decoded payload has a falsy `sub`, `verifyToken` fails with
the missing-subject error; and `verifyToken` never returns a claim set with
a falsy subject. -/
theorem verifyToken_missing_subject :
    (∀ (t : SignedToken) (now : Int) (p : TokenPayload),
        jwtVerify JWT_SECRET t now = Except.ok p → truthyStr p.sub = none →
        verifyToken t now = Except.error "Invalid token: missing subject (sub) claim") ∧
    (∀ (t : SignedToken) (now : Int) (c : TokenPayload),
        verifyToken t now = Except.ok c → truthyStr c.sub ≠ none) := by
  constructor
  · intro t now p hv hsub
    unfold verifyToken
    rw [hv]
    simp [hsub]
  · intro t now c hc
    unfold verifyToken at hc
    cases hj : jwtVerify JWT_SECRET t now with
    | error e =>
      rw [hj] at hc
      cases e <;> simp at hc
    | ok d =>
      rw [hj] at hc
      by_cases hs : (truthyStr d.sub).isNone
      · simp [hs] at hc
      · simp [hs] at hc
        rw [← hc]
        exact fun hn => hs (by simp [hn])

/-- Witness for C6: a token signed under the process secret but lacking a
subject claim is rejected as malformed. -/
theorem verifyToken_missing_subject_witness :
    verifyToken wNoSubToken 0 = Except.error "Invalid token: missing subject (sub) claim" :=
  verifyToken_missing_subject.1 wNoSubToken 0 wNoSubPayload (by decide) (by decide)

/-- Revoking by hash leaves the token_hash column unchanged. -/
theorem revokeByHash_token_hash (h : String) (r : RefreshTokenRecord) :
    (revokeByHash h r).token_hash = r.token_hash := by
  unfold revokeByHash
  split <;> rfl

/-- Revoking by hash leaves the user_id column unchanged. -/
theorem revokeByHash_user_id (h : String) (r : RefreshTokenRecord) :
    (revokeByHash h r).user_id = r.user_id := by
  unfold revokeByHash
  split <;> rfl

/-- Filtering on (hash, user) commutes with the revoke-by-hash update, because
the update does not touch the filtered columns. -/
theorem filter_tok_map_revokeByHash (led : Ledger) (hsh uid : String) :
    (led.map (revokeByHash hsh)).filter
        (fun r => r.token_hash == hsh && r.user_id == uid) =
      (led.filter (fun r => r.token_hash == hsh && r.user_id == uid)).map
        (revokeByHash hsh) := by
  induction led with
  | nil => rfl
  | cons a t ih =>
    by_cases hcond : (a.token_hash == hsh && a.user_id == uid) = true
    · simp [List.filter_cons, revokeByHash_token_hash, revokeByHash_user_id, hcond, ih]
    · simp [List.filter_cons, revokeByHash_token_hash, revokeByHash_user_id, hcond, ih]

/-- Claim C1: single-use refresh rotation.  Once `rotateRefreshToken`
has returned Rotated for the raw credential R of an identity, any later
call presenting the same raw value R reports ReuseDetected, never Rotated. -/
theorem rotateRefreshToken_single_use
    (led led2 : Ledger) (uid R N1 : String) (e1 : Int) (f1 : String) (t1 : Int)
    (N2 : String) (e2 : Int) (f2 : String) (t2 : Int)
    (h : rotateRefreshToken led uid R N1 e1 f1 t1 = (RotateResult.rotated, led2)) :
    (rotateRefreshToken led2 uid R N2 e2 f2 t2).1 = RotateResult.reuseDetected := by
  simp only [rotateRefreshToken] at h
  split at h
  · simp at h
  · split at h
    · simp at h
    · rename_i first rest heq
      split at h
      · simp at h
      · rw [Prod.mk.injEq] at h
        obtain ⟨-, hled2⟩ := h
        subst hled2
        have hmem : first ∈ led.filter
            (fun r => r.token_hash == sha256 R && r.user_id == uid) := by
          rw [heq]
          exact List.mem_cons_self _ _
        have hmt := List.of_mem_filter hmem
        rw [Bool.and_eq_true] at hmt
        simp only [rotateRefreshToken]
        split
        · rfl
        · have hstep : ∀ z : Ledger,
              ((led.map (revokeByHash (sha256 R)) ++ z).filter
                (fun r => r.token_hash == sha256 R && r.user_id == uid)) =
              revokeByHash (sha256 R) first ::
                (rest.map (revokeByHash (sha256 R)) ++
                  z.filter (fun r => r.token_hash == sha256 R && r.user_id == uid)) := by
            intro z
            rw [List.filter_append, filter_tok_map_revokeByHash, heq, List.map_cons,
              List.cons_append]
          rw [hstep]
          have hrev : (revokeByHash (sha256 R) first).revoked = true := by
            unfold revokeByHash
            rw [if_pos hmt.1]
          simp [hrev]

/-- Witness for C1: after a successful rotation of R on a one-record ledger,
presenting R again reports reuse. -/
theorem rotateRefreshToken_single_use_witness :
    (rotateRefreshToken
        (rotateRefreshToken [⟨"id1", "u1", sha256 "R", 1000000, false, 0⟩]
          "u1" "R" "N1" 2000000 "id2" 1).2
        "u1" "R" "N2" 3000000 "id3" 2).1 = RotateResult.reuseDetected :=
  rotateRefreshToken_single_use [⟨"id1", "u1", sha256 "R", 1000000, false, 0⟩]
    (rotateRefreshToken [⟨"id1", "u1", sha256 "R", 1000000, false, 0⟩]
      "u1" "R" "N1" 2000000 "id2" 1).2
    "u1" "R" "N1" 2000000 "id2" 1 "N2" 3000000 "id3" 2 (by decide)

/-- Every ReuseDetected outcome of rotation leaves the ledger in the
revoke-all state for that identity. -/
theorem rotate_reuse_revokes_all (led : Ledger) (uid o n : String) (e : Int)
    (f : String) (t : Int) (led2 : Ledger)
    (h : rotateRefreshToken led uid o n e f t = (RotateResult.reuseDetected, led2)) :
    led2 = revokeAllForUser led uid := by
  simp only [rotateRefreshToken] at h
  split at h
  · rw [Prod.mk.injEq] at h
    exact h.2.symm
  · split at h
    · rw [Prod.mk.injEq] at h
      exact h.2.symm
    · split at h
      · rw [Prod.mk.injEq] at h
        exact h.2.symm
      · simp at h

/-- After revoke-all, no credential of that identity validates. -/
theorem isRefreshTokenValid_revokeAllForUser (led : Ledger) (uid T : String) (now : Int) :
    isRefreshTokenValid (revokeAllForUser led uid) uid T now = false := by
  unfold isRefreshTokenValid revokeAllForUser
  rw [List.any_map, List.any_eq_false]
  intro r hr
  by_cases hu : (r.user_id == uid) = true
  · by_cases hv : (r.revoked == false) = true
    · simp [Function.comp, hu, hv]
    · simp [Function.comp, hu, hv]
  · simp [Function.comp, hu]

/-- Claim C2: blast radius of reuse detection.  Whenever rotation reports
ReuseDetected for an identity, every raw token that was valid for that
identity beforehand is invalid afterwards: the whole family is revoked. -/
theorem rotateRefreshToken_blast_radius (led led2 : Ledger) (uid o n : String)
    (e : Int) (f : String) (t : Int) (T : String) (now : Int)
    (h : rotateRefreshToken led uid o n e f t = (RotateResult.reuseDetected, led2))
    (_hv : isRefreshTokenValid led uid T now = true) :
    isRefreshTokenValid led2 uid T now = false := by
  rw [rotate_reuse_revokes_all led uid o n e f t led2 h]
  exact isRefreshTokenValid_revokeAllForUser led uid T now

/-- Witness for C2: rotating an unknown token on a two-credential ledger
invalidates the previously-valid credential R2. -/
theorem rotateRefreshToken_blast_radius_witness :
    isRefreshTokenValid
      (rotateRefreshToken
        [⟨"id1", "u1", sha256 "R", 1000000, false, 0⟩,
         ⟨"id2", "u1", sha256 "R2", 1000000, false, 0⟩]
        "u1" "X" "N" 2000000 "id3" 1).2 "u1" "R2" 5 = false :=
  rotateRefreshToken_blast_radius
    [⟨"id1", "u1", sha256 "R", 1000000, false, 0⟩,
     ⟨"id2", "u1", sha256 "R2", 1000000, false, 0⟩]
    (rotateRefreshToken
      [⟨"id1", "u1", sha256 "R", 1000000, false, 0⟩,
       ⟨"id2", "u1", sha256 "R2", 1000000, false, 0⟩]
      "u1" "X" "N" 2000000 "id3" 1).2
    "u1" "X" "N" 2000000 "id3" 1 "R2" 5 (by decide) (by decide)

/-- Filtering by a predicate implied by the scanned condition does not change
an existence scan. -/
theorem any_filter_of_imp {α : Type} (l : List α) (q v : α → Bool)
    (h : ∀ a, v a = true → q a = true) : (l.filter q).any v = l.any v := by
  induction l with
  | nil => rfl
  | cons a t ih =>
    by_cases hq : q a = true
    · simp [List.filter_cons, hq, List.any_cons, ih]
    · have hva : v a = false := by
        cases hx : v a
        · rfl
        · exact absurd (h a hx) (by simp [hq])
      simp [List.filter_cons, hq, List.any_cons, ih, hva]

/-- Rows counted by a predicate plus rows surviving its negation account for
the whole table. -/
theorem countP_filter_not {α : Type} (l : List α) (p : α → Bool) :
    l.countP p + (l.filter fun a => !(p a)).length = l.length := by
  induction l with
  | nil => rfl
  | cons a t ih =>
    by_cases hp : p a = true <;>
      simp [List.countP_cons, List.filter_cons, hp] <;> omega

/-- Claim C10: purge touches only revoked records.  For every filter
combination, `deleteRevokedRefreshTokens` removes only rows with
revoked = TRUE, returns the number of removed rows, keeps every non-revoked
row, and never changes the result of `isRefreshTokenValid`. -/
theorem deleteRevokedRefreshTokens_frame (led : Ledger) (userId : Option String)
    (olderThan : Option Int) (uid tok : String) (now : Int) :
    (∀ r ∈ (deleteRevokedRefreshTokens led userId olderThan).2, r ∈ led) ∧
    (∀ r ∈ led, r.revoked = false → r ∈ (deleteRevokedRefreshTokens led userId olderThan).2) ∧
    (∀ r ∈ led, r ∉ (deleteRevokedRefreshTokens led userId olderThan).2 → r.revoked = true) ∧
    ((deleteRevokedRefreshTokens led userId olderThan).1 +
      ((deleteRevokedRefreshTokens led userId olderThan).2).length = led.length) ∧
    isRefreshTokenValid (deleteRevokedRefreshTokens led userId olderThan).2 uid tok now =
      isRefreshTokenValid led uid tok now := by
  refine ⟨?_, ?_, ?_, ?_, ?_⟩
  · intro r hr
    exact (List.mem_filter.mp hr).1
  · intro r hr hrev
    refine List.mem_filter.mpr ⟨hr, ?_⟩
    simp [purgeMatches, hrev]
  · intro r hr hnot
    by_cases h : r.revoked = true
    · exact h
    · refine absurd (List.mem_filter.mpr ⟨hr, ?_⟩) hnot
      have hfr : r.revoked = false := by
        cases hx : r.revoked
        · rfl
        · exact absurd hx h
      simp [purgeMatches, hfr]
  · exact countP_filter_not led _
  · unfold isRefreshTokenValid deleteRevokedRefreshTokens
    apply any_filter_of_imp
    intro a ha
    have hrv : a.revoked = false := by
      cases hx : a.revoked
      · rfl
      · simp [hx] at ha
    simp [purgeMatches, hrv]

/-- Witness for C10: on a two-row ledger the non-revoked row survives a purge
restricted to its user. -/
theorem deleteRevokedRefreshTokens_frame_witness :
    (⟨"a", "u1", sha256 "R", 1000, false, 0⟩ : RefreshTokenRecord) ∈
      (deleteRevokedRefreshTokens
        [⟨"a", "u1", sha256 "R", 1000, false, 0⟩,
         ⟨"b", "u1", sha256 "S", 1000, true, 0⟩] (some "u1") none).2 :=
  (deleteRevokedRefreshTokens_frame
    [⟨"a", "u1", sha256 "R", 1000, false, 0⟩,
     ⟨"b", "u1", sha256 "S", 1000, true, 0⟩] (some "u1") none "u1" "R" 5).2.1
    ⟨"a", "u1", sha256 "R", 1000, false, 0⟩ (by decide) (by decide)

/-- Fixture: an inactive account holding a valid refresh credential. -/
def w9User : User :=
  { id := "u1", user_type := "tenant", system_role := none, email := "a@b.c",
    is_active := false, last_login := none, password_hash := bcryptHash "pw" }

/-- Fixture: payload of the refresh token presented by `w9User`. -/
def w9Payload : TokenPayload :=
  { sub := some "u1", iat := 0, aud := "assetcore-client", iss := "assetcore",
    active_company_id := none }

/-- Fixture: the signed refresh token of `w9User`, expiring at second 1000. -/
def w9Presented : SignedToken :=
  jwtSign JWT_SECRET w9Payload 1000 0

/-- Fixture: database where `w9User` is inactive but its credential is live. -/
def w9Db : Database :=
  { users := [w9User], companies := [], user_companies := [],
    refresh_tokens := [⟨"r1", "u1", sha256 (tokenString w9Presented), 1000000000, false, 0⟩] }

/-- Claim C9: inactive-account refresh leaves the ledger unchanged.  When the
presented refresh token verifies, is valid in the ledger, and the resolved
identity is inactive, the call fails with "Account is inactive", the whole
database state is untouched, and the credential still validates afterwards
(the active-account check runs before rotation). -/
theorem refreshToken_inactive_preserves_ledger (db : Database) (presented : SignedToken)
    (nowMs : Int) (fid : String) (decoded : TokenPayload) (uid : String) (user : User)
    (hv : jwtVerify JWT_SECRET presented (nowMs / 1000) = Except.ok decoded)
    (hsub : truthyStr decoded.sub = some uid)
    (hvalid : isRefreshTokenValid db.refresh_tokens uid (tokenString presented) nowMs = true)
    (huser : getUserById db uid = some user)
    (hinactive : user.is_active = false) :
    refreshToken db presented nowMs fid = (Except.error "Account is inactive", db) ∧
    isRefreshTokenValid (refreshToken db presented nowMs fid).2.refresh_tokens uid
      (tokenString presented) nowMs = true := by
  have hmain : refreshToken db presented nowMs fid =
      (Except.error "Account is inactive", db) := by
    unfold refreshToken
    simp [hv, hsub, hvalid, huser, hinactive]
  refine ⟨hmain, ?_⟩
  rw [hmain]
  exact hvalid

/-- Witness for C9: on the fixture, refreshing the inactive account's valid
credential reports the inactive error and leaves the database unchanged. -/
theorem refreshToken_inactive_preserves_ledger_witness :
    refreshToken w9Db w9Presented 500000 "f" = (Except.error "Account is inactive", w9Db) :=
  (refreshToken_inactive_preserves_ledger w9Db w9Presented 500000 "f" w9Payload "u1" w9User
    (by decide) (by decide) (by decide) (by decide) (by decide)).1

/-- Fixture: payload of a bearer token for `wUser` without tenant context. -/
def w5Payload : TokenPayload :=
  { sub := some "u1", iat := 0, aud := "assetcore-client", iss := "assetcore",
    active_company_id := none }

/-- Fixture: the signed bearer token of `wUser`, expiring at second 1000. -/
def w5Tok : SignedToken :=
  jwtSign JWT_SECRET w5Payload 1000 0

/-- Fixture: directory where company c9 exists but `wUser` is only a member
of c1. -/
def w5Db : Database :=
  { users := [wUser],
    companies := [⟨"c9", "Nine", "nine", true⟩],
    user_companies := [⟨"u1", "c1", "company_admin", none, true, true, 10⟩],
    refresh_tokens := [] }

/-- Claim C5: tenant isolation of set-active-company.  A verified caller with
no active membership for the requested tenant is rejected with Forbidden and
the database (hence the ledger) is unchanged, so no token pair is issued —
regardless of whether the tenant exists in the companies table; and a caller
whose identity is not tenant-kind is rejected independently of any
membership information. -/
theorem setActiveCompany_tenant_isolation (db : Database) (tok : SignedToken)
    (companyId : String) (nowMs : Int) (fid : String) (decoded : TokenPayload) (user : User)
    (hv : verifyToken tok (nowMs / 1000) = Except.ok decoded)
    (hu : getUserById db (decoded.sub.getD "") = some user) :
    (user.user_type = "tenant" →
      ((getUserCompaniesByUserId db (decoded.sub.getD "")).any
          fun c => c.company_id == companyId && c.is_active) = false →
      setActiveCompanyPOST db (some tok) companyId nowMs fid =
        (SetActiveCompanyResponse.forbidden, db)) ∧
    (user.user_type ≠ "tenant" →
      setActiveCompanyPOST db (some tok) companyId nowMs fid =
        (SetActiveCompanyResponse.notTenantUser, db)) := by
  constructor
  · intro htype hmiss
    unfold setActiveCompanyPOST
    simp [hv, hu, htype, hmiss]
  · intro htype
    unfold setActiveCompanyPOST
    simp [hv, hu, htype]

/-- Witness for C5: on the fixture, requesting tenant c9 — which exists in the
companies table but is not among the caller's memberships — is Forbidden and
leaves the state unchanged. -/
theorem setActiveCompany_tenant_isolation_witness :
    setActiveCompanyPOST w5Db (some w5Tok) "c9" 500000 "f" =
      (SetActiveCompanyResponse.forbidden, w5Db) :=
  (setActiveCompany_tenant_isolation w5Db w5Tok "c9" 500000 "f" w5Payload wUser
    (by decide) (by decide)).1 (by decide) (by decide)

/-- Successful signature verification returns exactly the token's payload. -/
theorem jwtVerify_ok (secret : String) (t : SignedToken) (nowSec : Int) (p : TokenPayload)
    (h : jwtVerify secret t nowSec = Except.ok p) : p = t.payload := by
  unfold jwtVerify at h
  split at h
  · simp at h
  · split at h
    · simp at h
    · exact (Except.ok.inj h).symm

/-- A truthy claim is the claim itself. -/
theorem truthyStr_some (o : Option String) (u : String) (h : truthyStr o = some u) :
    o = some u := by
  cases o with
  | none => simp [truthyStr] at h
  | some s =>
    by_cases hs : (s == "") = true
    · simp [truthyStr, hs] at h
    · simp [truthyStr, hs] at h
      rw [h]

/-- A user found by id carries that id. -/
theorem getUserById_some_id (db : Database) (uid : String) (user : User)
    (h : getUserById db uid = some user) : user.id = uid := by
  unfold getUserById at h
  have := List.find?_some h
  simpa using this

/-- Total projection of a refresh result, defaulting errors to a dummy. -/
def okRefresh (x : Except String RefreshOk) : RefreshOk :=
  match x with
  | Except.ok r => r
  | Except.error _ =>
    { token := ⟨⟨none, 0, "", "", none⟩, 0, ""⟩,
      refreshToken := ⟨⟨none, 0, "", "", none⟩, 0, ""⟩,
      expiresIn := 0,
      user := ⟨"", "", none, "", false, none, ""⟩ }

/-- Shape of every successful refresh: both freshly minted tokens carry the
re-resolved user's id as subject, the fixed audience and issuer, and the
truthy projection of the presented token's active_company_id claim. -/
theorem refreshToken_ok_shape (db : Database) (presented : SignedToken) (nowMs : Int)
    (fid : String) (res : RefreshOk) (db2 : Database)
    (h : refreshToken db presented nowMs fid = (Except.ok res, db2)) :
    ∃ user : User,
      presented.payload.sub = some user.id ∧
      res.token.payload =
        { sub := some user.id, iat := nowMs / 1000, aud := "assetcore-client",
          iss := "assetcore",
          active_company_id := truthyStr presented.payload.active_company_id } ∧
      res.refreshToken.payload =
        { sub := some user.id, iat := nowMs / 1000, aud := "assetcore-client",
          iss := "assetcore",
          active_company_id := truthyStr presented.payload.active_company_id } := by
  simp only [refreshToken] at h
  split at h
  · simp at h
  · simp at h
  · rename_i decoded hjv
    split at h
    · simp at h
    · rename_i userId hsub
      split at h
      · simp at h
      · split at h
        · simp at h
        · rename_i user huser
          split at h
          · simp at h
          · split at h
            · simp at h
            · rw [Prod.mk.injEq] at h
              obtain ⟨hok, -⟩ := h
              have hres := Except.ok.inj hok
              have hdec : decoded = presented.payload :=
                jwtVerify_ok JWT_SECRET presented (nowMs / 1000) decoded hjv
              subst hdec
              have hid : user.id = userId := getUserById_some_id db userId user huser
              refine ⟨user, ?_, ?_, ?_⟩
              · rw [hid]
                exact truthyStr_some presented.payload.sub userId hsub
              · rw [← hres]
                rfl
              · rw [← hres]
                rfl

/-- Fixture: refresh-token payload carrying an empty-string tenant claim. -/
def w7Payload : TokenPayload :=
  { sub := some "u1", iat := 0, aud := "assetcore-client", iss := "assetcore",
    active_company_id := some "" }

/-- Fixture: the signed form of `w7Payload`, expiring at second 1000. -/
def w7Presented : SignedToken :=
  jwtSign JWT_SECRET w7Payload 1000 0

/-- Fixture: database where `w7Presented` is a live credential of `wUser`. -/
def w7Db : Database :=
  { users := [wUser], companies := [], user_companies := [],
    refresh_tokens := [⟨"r1", "u1", sha256 (tokenString w7Presented), 1000000000, false, 0⟩] }

/-- Counterexample to C7 as stated: the presented refresh token carries the
active-tenant claim with value "" (a carried claim), the refresh call
succeeds, yet both newly issued tokens carry no such claim — the claim's
"carries that same claim value" fails because the source copies the claim
only when it is truthy, and the empty string is falsy in JavaScript. -/
theorem refreshToken_empty_claim_counterexample :
    w7Presented.payload.active_company_id = some "" ∧
    (refreshToken w7Db w7Presented 500000 "f").1.isOk = true ∧
    (okRefresh (refreshToken w7Db w7Presented 500000 "f").1).token.payload.active_company_id
      = none ∧
    (okRefresh (refreshToken w7Db w7Presented 500000 "f").1).refreshToken.payload.active_company_id
      = none :=
  ⟨rfl, by decide, by decide, by decide⟩

/-- Claim C7 (amended): for every successful refresh, the newly issued access
and refresh tokens carry the truthy projection of the presented token's
active_company_id claim — the same value when it is non-empty, and no claim
when it is absent or the empty string; the subject is preserved (via the
re-resolved user id), and the audience and issuer of the new tokens are the
fixed constants, hence unchanged whenever the presented token carries them. -/
theorem refreshToken_active_claim_amended (db : Database) (presented : SignedToken)
    (nowMs : Int) (fid : String)
    (h : (refreshToken db presented nowMs fid).1.isOk = true) :
    (okRefresh (refreshToken db presented nowMs fid).1).token.payload.active_company_id =
      truthyStr presented.payload.active_company_id ∧
    (okRefresh (refreshToken db presented nowMs fid).1).refreshToken.payload.active_company_id =
      truthyStr presented.payload.active_company_id ∧
    (okRefresh (refreshToken db presented nowMs fid).1).token.payload.sub =
      presented.payload.sub ∧
    (okRefresh (refreshToken db presented nowMs fid).1).refreshToken.payload.sub =
      presented.payload.sub ∧
    (okRefresh (refreshToken db presented nowMs fid).1).token.payload.aud = "assetcore-client" ∧
    (okRefresh (refreshToken db presented nowMs fid).1).refreshToken.payload.aud =
      "assetcore-client" ∧
    (okRefresh (refreshToken db presented nowMs fid).1).token.payload.iss = "assetcore" ∧
    (okRefresh (refreshToken db presented nowMs fid).1).refreshToken.payload.iss =
      "assetcore" := by
  cases hx : refreshToken db presented nowMs fid with
  | mk a b =>
    cases a with
    | error e =>
      rw [hx] at h
      simp [Except.isOk, Except.toBool] at h
    | ok res =>
      obtain ⟨user, hsub, htok, href⟩ :=
        refreshToken_ok_shape db presented nowMs fid res b hx
      simp [okRefresh, htok, href, hsub]

/-- Fixture: refresh-token payload carrying a non-empty tenant claim c1. -/
def w7bPayload : TokenPayload :=
  { sub := some "u1", iat := 0, aud := "assetcore-client", iss := "assetcore",
    active_company_id := some "c1" }

/-- Fixture: the signed form of `w7bPayload`, expiring at second 1000. -/
def w7bPresented : SignedToken :=
  jwtSign JWT_SECRET w7bPayload 1000 0

/-- Fixture: database where `w7bPresented` is a live credential of `wUser`. -/
def w7bDb : Database :=
  { users := [wUser], companies := [], user_companies := [],
    refresh_tokens := [⟨"r1", "u1", sha256 (tokenString w7bPresented), 1000000000, false, 0⟩] }

/-- Witness for the amended C7: a successful refresh of a token carrying the
non-empty claim c1 yields a new access token still carrying c1. -/
theorem refreshToken_active_claim_amended_witness :
    (okRefresh (refreshToken w7bDb w7bPresented 500000 "f").1).token.payload.active_company_id =
      truthyStr w7bPresented.payload.active_company_id :=
  (refreshToken_active_claim_amended w7bDb w7bPresented 500000 "f" (by decide)).1

/-- Total projection of a login result, defaulting errors to a dummy. -/
def okLogin (x : Except String LoginOk) : LoginOk :=
  match x with
  | Except.ok r => r
  | Except.error _ =>
    { user := ⟨"", "", none, "", false, none, ""⟩,
      token := ⟨⟨none, 0, "", "", none⟩, 0, ""⟩,
      refreshToken := ⟨⟨none, 0, "", "", none⟩, 0, ""⟩,
      expiresIn := 0, companies := [] }

/-- Claim C8: membership ordering at login.  For a tenant-kind identity, a
successful login returns exactly the identity's active membership rows
joined with active companies — a permutation of the filtered join — ordered
by the membership comparison (primary first, then ascending join time), so
in particular primary-first on the returned rows. -/
theorem login_memberships_ordered (db : Database) (email pw : String) (nowMs : Int)
    (fid : String) (u : User)
    (hu : getUserByEmail db email = some u)
    (ht : u.user_type = "tenant")
    (hok : (login db email pw nowMs fid).1.isOk = true) :
    (okLogin (login db email pw nowMs fid).1).companies =
      (List.insertionSort pairOrder (loginCompanyPairs db u.id)).map toCompanyRow ∧
    List.Perm (okLogin (login db email pw nowMs fid).1).companies
      ((loginCompanyPairs db u.id).map toCompanyRow) ∧
    List.Pairwise (fun a b : CompanyRow => b.is_primary = true → a.is_primary = true)
      (okLogin (login db email pw nowMs fid).1).companies ∧
    List.Sorted pairOrder (List.insertionSort pairOrder (loginCompanyPairs db u.id)) := by
  have hcomp : (okLogin (login db email pw nowMs fid).1).companies =
      loginCompanies db u.id := by
    cases hpw : verifyPassword pw u.password_hash with
    | false =>
      exfalso
      unfold login at hok
      simp [hu, hpw, Except.isOk, Except.toBool] at hok
    | true =>
      cases hact : u.is_active with
      | false =>
        exfalso
        unfold login at hok
        simp [hu, hpw, hact, Except.isOk, Except.toBool] at hok
      | true =>
        unfold login
        simp [hu, hpw, hact, okLogin, ht]
  have hsorted : List.Sorted pairOrder
      (List.insertionSort pairOrder (loginCompanyPairs db u.id)) :=
    List.sorted_insertionSort pairOrder (loginCompanyPairs db u.id)
  have hdef : loginCompanies db u.id =
      (List.insertionSort pairOrder (loginCompanyPairs db u.id)).map toCompanyRow := rfl
  refine ⟨by rw [hcomp, hdef], ?_, ?_, hsorted⟩
  · rw [hcomp, hdef]
    exact (List.perm_insertionSort pairOrder (loginCompanyPairs db u.id)).map toCompanyRow
  · rw [hcomp, hdef]
    refine List.Pairwise.map toCompanyRow ?_ hsorted
    intro a b hab hbp
    unfold pairOrder membershipOrder memberLE at hab
    have hbp1 : b.1.is_primary = true := hbp
    cases hx : a.1.is_primary with
    | true => exact hx
    | false =>
      rw [hx, hbp1] at hab
      simp at hab

/-- Fixture: directory with two active companies and two active memberships
of `wUser`, the later-joined one primary. -/
def w8Db : Database :=
  { users := [wUser],
    companies := [⟨"c1", "Acme", "acme", true⟩, ⟨"c2", "Beta", "beta", true⟩],
    user_companies :=
      [⟨"u1", "c2", "asset_manager", none, false, true, 50⟩,
       ⟨"u1", "c1", "company_admin", none, true, true, 100⟩],
    refresh_tokens := [] }

/-- Witness for C8: on the fixture, the memberships returned by a successful
login are primary-first. -/
theorem login_memberships_ordered_witness :
    List.Pairwise (fun a b : CompanyRow => b.is_primary = true → a.is_primary = true)
      (okLogin (login w8Db "a@b.c" "pw" 500000 "f1").1).companies :=
  (login_memberships_ordered w8Db "a@b.c" "pw" 500000 "f1" wUser
    (by decide) (by decide) (by decide)).2.2.1

end AssetCore
